import Mathlib

/-!
# fuse-boilerplate: the low-level request bridge and the inode layer

A shallow embedding of `src/main.cc` (the `ll_*` request handlers, the option
table and the start-up sequence of `main`) and of `src/inode.cc` (the inode
destructors and the file-type predicates).

The facade (`FileSystem`, declared in `filesystem.h`) is not part of the
embedded sources: it is a parameter of every handler.  A facade is a function
that, given an entry point with its arguments and the current filesystem
state, yields the values the entry point hands back together with the next
state.  Every handler records the facade entry points it invokes and the
replies it sends in a trace, in program order.
-/

namespace FuseBoilerplate

/-! ## Machine integers -/

/-- Largest value of a 32-bit `int`. -/
def INT_MAX : Int := 2147483647

/-- Smallest value of a 32-bit `int`. -/
def INT_MIN : Int := -2147483648

/-- Conversion of an integer to a 32-bit two's complement `int`. -/
def to_int (x : Int) : Int := (x + 2147483648) % 4294967296 - 2147483648

/-- Conversion of an integer to a 64-bit two's complement `ssize_t`. -/
def to_ssize_t (x : Int) : Int :=
  (x + 9223372036854775808) % 18446744073709551616 - 9223372036854775808

/-- Conversion of an integer to a 64-bit `size_t`. -/
def to_size_t (x : Int) : Nat := (x % 18446744073709551616).toNat

/-- Unary minus on an `int` operand. -/
def neg_int (x : Int) : Int := to_int (-x)

/-- Unary minus on an `ssize_t` operand. -/
def neg_ssize_t (x : Int) : Int := to_ssize_t (-x)

/-- Left shift of `int` operands, as in `512 << 20`. -/
def shl_int (x : Int) (k : Nat) : Int := to_int (x * 2 ^ k)

/-! ## POSIX constants used by the sources -/

/-- Mask of the file-type bits of `st_mode` (`<sys/stat.h>`). -/
def S_IFMT : Nat := 0o170000

/-- File-type bits of a regular file (`<sys/stat.h>`). -/
def S_IFREG : Nat := 0o100000

/-- File-type bits of a directory (`<sys/stat.h>`). -/
def S_IFDIR : Nat := 0o040000

/-- File-type bits of a symbolic link (`<sys/stat.h>`). -/
def S_IFLNK : Nat := 0o120000

/-- Open flag asking for creation (`<fcntl.h>`). -/
def O_CREAT : Nat := 0o100

/-- Longest path, in bytes (`<linux/limits.h>`). -/
def PATH_MAX : Nat := 4096

/-! ## Data carried by requests and replies -/

/-- Fields of `struct stat` that the handlers and the inode layer touch. -/
structure Stat where
  st_ino : Nat
  st_mode : Nat
  st_nlink : Nat
  st_uid : Nat
  st_gid : Nat
  st_size : Int
  st_blocks : Int
  deriving DecidableEq, Repr, Inhabited

/-- A `struct stat` after `memset(.., 0, ..)`. -/
def Stat.zero : Stat :=
  { st_ino := 0, st_mode := 0, st_nlink := 0, st_uid := 0, st_gid := 0, st_size := 0,
    st_blocks := 0 }

/-- Fields of `struct statvfs`. -/
structure Statvfs where
  f_bsize : Nat
  f_blocks : Nat
  f_bfree : Nat
  f_files : Nat
  f_ffree : Nat
  deriving DecidableEq, Repr, Inhabited

/-- A `struct statvfs` after `memset(.., 0, ..)`. -/
def Statvfs.zero : Statvfs :=
  { f_bsize := 0, f_blocks := 0, f_bfree := 0, f_files := 0, f_ffree := 0 }

/-- Caller credentials, `struct fuse_ctx`. -/
structure fuse_ctx where
  uid : Nat
  gid : Nat
  pid : Nat
  deriving DecidableEq, Repr, Inhabited

/-- A request handle: what `fuse_req_ctx` yields for it. -/
structure fuse_req where
  ctx : fuse_ctx
  deriving DecidableEq, Repr, Inhabited

/-- Fields of `struct fuse_file_info` used by the handlers; `fh` holds a
`FileHandle*` as a number, `0` being the null pointer. -/
structure fuse_file_info where
  flags : Nat
  fh : Nat
  deriving DecidableEq, Repr, Inhabited

/-- Entry reply payload, `struct fuse_entry_param`; the timeouts are whole seconds. -/
structure fuse_entry_param where
  ino : Nat
  generation : Nat
  attr : Stat
  attr_timeout : Nat
  entry_timeout : Nat
  deriving DecidableEq, Repr, Inhabited

/-- A `struct fuse_entry_param` after `memset(.., 0, ..)`. -/
def fuse_entry_param.zero : fuse_entry_param :=
  { ino := 0, generation := 0, attr := Stat.zero, attr_timeout := 0, entry_timeout := 0 }

/-- One element of a batched forget, `struct fuse_forget_data`. -/
structure fuse_forget_data where
  ino : Nat
  nlookup : Nat
  deriving DecidableEq, Repr, Inhabited

/-- Modelled from the spec: the extent type stored in a regular inode (its
declaration is in `inode.h`, which is not among the sources): the tuple
`(node_id, address, size)`. -/
structure Extent where
  node : Nat
  addr : Nat
  size : Nat
  deriving DecidableEq, Repr, Inhabited

/-! ## The facade and the trace of a handler -/

/-- An invocation of a facade entry point, with the arguments the caller passes. -/
inductive FsCall where
  | destroy
  | create (parent : Nat) (name : String) (mode : Nat) (flags : Nat) (uid gid : Nat)
  | release (ino : Nat) (fh : Nat)
  | unlink (parent : Nat) (name : String) (uid gid : Nat)
  | forget (ino : Nat) (nlookup : Nat)
  | getattr (ino : Nat) (uid gid : Nat)
  | lookup (parent : Nat) (name : String)
  | opendir (ino : Nat) (flags : Nat) (uid gid : Nat)
  | readdir (req : fuse_req) (ino : Nat) (size : Nat) (off : Int)
  | releasedir (ino : Nat)
  | open_file (ino : Nat) (flags : Nat) (uid gid : Nat)
  | write_buf (fh : Nat) (bufv : List Nat) (off : Int)
  | read (fh : Nat) (off : Int) (size : Nat)
  | mkdir (parent : Nat) (name : String) (mode : Nat) (uid gid : Nat)
  | rmdir (parent : Nat) (name : String) (uid gid : Nat)
  | rename (parent : Nat) (name : String) (newparent : Nat) (newname : String) (uid gid : Nat)
  | setattr (ino : Nat) (fh : Nat) (attr : Stat) (to_set : Int) (uid gid : Nat)
  | readlink (ino : Nat) (size : Nat) (uid gid : Nat)
  | symlink (link : String) (parent : Nat) (name : String) (uid gid : Nat)
  | statfs (ino : Nat)
  | link (ino : Nat) (newparent : Nat) (newname : String) (uid gid : Nat)
  | access (ino : Nat) (mask : Int) (uid gid : Nat)
  | mknod (parent : Nat) (name : String) (mode : Nat) (rdev : Nat) (uid gid : Nat)
  | free_space (extent : Extent)
  deriving DecidableEq, Repr

/-- What a facade entry point hands back: its return value and the content of
its output parameters after the call (`attr` for a `struct stat*`, `fh` for a
`FileHandle**`, `buf` for the bytes stored at the start of a `char*` buffer,
`stbuf` for a `struct statvfs*`).  Entry points returning `void` leave `ret`
unused. -/
structure FsRet where
  ret : Int
  attr : Stat
  fh : Nat
  buf : List Nat
  stbuf : Statvfs
  deriving DecidableEq, Repr, Inhabited

/-- The facade over a state type: the effect of each entry point. -/
abbrev FileSystem (σ : Type) := FsCall → σ → FsRet × σ

/-- A reply sent to the kernel, one constructor per `fuse_reply_*` function
the handlers use. -/
inductive Reply where
  | err (code : Int)
  | none
  | entry (e : fuse_entry_param)
  | create (e : fuse_entry_param) (fi : fuse_file_info)
  | attr (st : Stat) (attr_timeout : Int)
  | opened (fi : fuse_file_info)
  | write (count : Nat)
  | buf (data : List Nat) (size : Nat)
  | readlink (link : List Nat)
  | statfs (stbuf : Statvfs)
  deriving DecidableEq, Repr

/-- An observable step of a handler. -/
inductive Event where
  | call (c : FsCall)
  | reply (r : Reply)
  deriving DecidableEq, Repr

/-- The filesystem state together with everything done so far. -/
structure World (σ : Type) where
  fs : σ
  trace : List Event

/-- Invoke a facade entry point: the state advances and the call is recorded. -/
def World.invoke {σ : Type} (F : FileSystem σ) (c : FsCall) (w : World σ) : FsRet × World σ :=
  ((F c w.fs).1, { fs := (F c w.fs).2, trace := w.trace ++ [Event.call c] })

/-- Send a reply for the request being served. -/
def World.send {σ : Type} (r : Reply) (w : World σ) : World σ :=
  { w with trace := w.trace ++ [Event.reply r] }

/-- The facade invocations found in a trace, in order. -/
def calls : List Event → List FsCall
  | [] => []
  | Event.call c :: t => c :: calls t
  | Event.reply _ :: t => calls t

/-- A `char` array of `n` cells before anything is stored in it (its content
is indeterminate in the source; the cells are taken to hold zero). -/
def char_array (n : Nat) : List Nat := List.replicate n 0

/-- The array `old` after a callee stored `bytes` at its start. -/
def stored (old : List Nat) (bytes : List Nat) : List Nat :=
  bytes.take old.length ++ old.drop bytes.length

/-- The C string held by a `char` array: the bytes before the first NUL. -/
def c_str (a : List Nat) : List Nat := a.takeWhile (fun b => b != 0)

/-! ## The request handlers of `main.cc` -/

section handlers

variable {σ : Type}

/-- The handler `ll_destroy`. -/
def ll_destroy (F : FileSystem σ) (w : World σ) : World σ :=
  (w.invoke F FsCall.destroy).2

/-- The handler `ll_create`. -/
def ll_create (F : FileSystem σ) (req : fuse_req) (parent : Nat) (name : String) (mode : Nat)
    (fi : fuse_file_info) (w : World σ) : World σ :=
  let fe := fuse_entry_param.zero
  let (r, w) := w.invoke F (FsCall.create parent name mode fi.flags req.ctx.uid req.ctx.gid)
  let fe := { fe with attr := r.attr }
  let ret := r.ret
  if ret = 0 then
    let fi := { fi with fh := r.fh }
    let fe := { fe with ino := fe.attr.st_ino }
    let fe := { fe with generation := 0 }
    let fe := { fe with entry_timeout := 1 }
    w.send (Reply.create fe fi)
  else
    w.send (Reply.err (neg_int ret))

/-- The handler `ll_release`. -/
def ll_release (F : FileSystem σ) (_req : fuse_req) (ino : Nat) (fi : fuse_file_info)
    (w : World σ) : World σ :=
  let fh := fi.fh
  let (_, w) := w.invoke F (FsCall.release ino fh)
  w.send (Reply.err 0)

/-- The handler `ll_unlink`. -/
def ll_unlink (F : FileSystem σ) (req : fuse_req) (parent : Nat) (name : String)
    (w : World σ) : World σ :=
  let (r, w) := w.invoke F (FsCall.unlink parent name req.ctx.uid req.ctx.gid)
  let ret := r.ret
  w.send (Reply.err (neg_int ret))

/-- The handler `ll_forget`. -/
def ll_forget (F : FileSystem σ) (_req : fuse_req) (ino : Nat) (nlookup : Nat)
    (w : World σ) : World σ :=
  let (_, w) := w.invoke F (FsCall.forget ino nlookup)
  w.send Reply.none

/-- The loop of `ll_forget_multi`, from index `i` on: element `i` of the
array is read and forgotten while `i < count`.  Reading past the end of the
array has no defined result. -/
def ll_forget_multi_loop (F : FileSystem σ) (count : Nat) (forgets : List fuse_forget_data)
    (i : Nat) (w : World σ) : Option (World σ) :=
  if i < count then
    match forgets.get? i with
    | some f =>
      ll_forget_multi_loop F count forgets (i + 1) (w.invoke F (FsCall.forget f.ino f.nlookup)).2
    | Option.none => Option.none
  else
    some w
termination_by count - i

/-- The handler `ll_forget_multi`. -/
def ll_forget_multi (F : FileSystem σ) (_req : fuse_req) (count : Nat)
    (forgets : List fuse_forget_data) (w : World σ) : Option (World σ) :=
  match ll_forget_multi_loop F count forgets 0 w with
  | some w => some (w.send Reply.none)
  | Option.none => Option.none

/-- The handler `ll_getattr`. -/
def ll_getattr (F : FileSystem σ) (req : fuse_req) (ino : Nat) (_fi : Option fuse_file_info)
    (w : World σ) : World σ :=
  let (r, w) := w.invoke F (FsCall.getattr ino req.ctx.uid req.ctx.gid)
  let st := r.attr
  let ret := r.ret
  if ret = 0 then
    w.send (Reply.attr st ret)
  else
    w.send (Reply.err (neg_int ret))

/-- The handler `ll_lookup`. -/
def ll_lookup (F : FileSystem σ) (_req : fuse_req) (parent : Nat) (name : String)
    (w : World σ) : World σ :=
  let fe := fuse_entry_param.zero
  let (r, w) := w.invoke F (FsCall.lookup parent name)
  let fe := { fe with attr := r.attr }
  let ret := r.ret
  if ret = 0 then
    let fe := { fe with ino := fe.attr.st_ino }
    let fe := { fe with generation := 0 }
    w.send (Reply.entry fe)
  else
    w.send (Reply.err (neg_int ret))

/-- The handler `ll_opendir`. -/
def ll_opendir (F : FileSystem σ) (req : fuse_req) (ino : Nat) (fi : fuse_file_info)
    (w : World σ) : World σ :=
  let (r, w) := w.invoke F (FsCall.opendir ino fi.flags req.ctx.uid req.ctx.gid)
  let ret := r.ret
  if ret = 0 then
    w.send (Reply.opened fi)
  else
    w.send (Reply.err (neg_int ret))

/-- The handler `ll_readdir`. -/
def ll_readdir (F : FileSystem σ) (req : fuse_req) (ino : Nat) (size : Nat) (off : Int)
    (_fi : fuse_file_info) (w : World σ) : World σ :=
  let buf := char_array size
  let (r, w) := w.invoke F (FsCall.readdir req ino size off)
  let buf := stored buf r.buf
  let ret := r.ret
  if ret ≥ 0 then
    w.send (Reply.buf buf (to_size_t ret))
  else
    let r := to_int ret
    w.send (Reply.err (neg_int r))

/-- The handler `ll_releasedir`. -/
def ll_releasedir (F : FileSystem σ) (_req : fuse_req) (ino : Nat) (_fi : fuse_file_info)
    (w : World σ) : World σ :=
  let (_, w) := w.invoke F (FsCall.releasedir ino)
  w.send (Reply.err 0)

/-- The handler `ll_open`; a failed `assert` ends the process and yields no world. -/
def ll_open (F : FileSystem σ) (req : fuse_req) (ino : Nat) (fi : fuse_file_info)
    (w : World σ) : Option (World σ) :=
  if fi.flags &&& O_CREAT ≠ 0 then
    Option.none
  else
    let (r, w) := w.invoke F (FsCall.open_file ino fi.flags req.ctx.uid req.ctx.gid)
    let ret := r.ret
    if ret = 0 then
      let fi := { fi with fh := r.fh }
      some (w.send (Reply.opened fi))
    else
      some (w.send (Reply.err (neg_int ret)))

/-- The handler `ll_write_buf`. -/
def ll_write_buf (F : FileSystem σ) (_req : fuse_req) (_ino : Nat) (bufv : List Nat) (off : Int)
    (fi : fuse_file_info) (w : World σ) : World σ :=
  let fh := fi.fh
  let (r, w) := w.invoke F (FsCall.write_buf fh bufv off)
  let ret := r.ret
  if ret ≥ 0 then
    w.send (Reply.write (to_size_t ret))
  else
    w.send (Reply.err (to_int (neg_ssize_t ret)))

/-- The handler `ll_read`. -/
def ll_read (F : FileSystem σ) (_req : fuse_req) (_ino : Nat) (size : Nat) (off : Int)
    (fi : fuse_file_info) (w : World σ) : World σ :=
  let fh := fi.fh
  let buf := char_array size
  let (r, w) := w.invoke F (FsCall.read fh off size)
  let buf := stored buf r.buf
  let ret := r.ret
  if ret ≥ 0 then
    w.send (Reply.buf buf (to_size_t ret))
  else
    w.send (Reply.err (to_int (neg_ssize_t ret)))

/-- The handler `ll_mkdir`. -/
def ll_mkdir (F : FileSystem σ) (req : fuse_req) (parent : Nat) (name : String) (mode : Nat)
    (w : World σ) : World σ :=
  let fe := fuse_entry_param.zero
  let (r, w) := w.invoke F (FsCall.mkdir parent name mode req.ctx.uid req.ctx.gid)
  let fe := { fe with attr := r.attr }
  let ret := r.ret
  if ret = 0 then
    let fe := { fe with ino := fe.attr.st_ino }
    let fe := { fe with generation := 0 }
    let fe := { fe with entry_timeout := 1 }
    w.send (Reply.entry fe)
  else
    w.send (Reply.err (neg_int ret))

/-- The handler `ll_rmdir`. -/
def ll_rmdir (F : FileSystem σ) (req : fuse_req) (parent : Nat) (name : String)
    (w : World σ) : World σ :=
  let (r, w) := w.invoke F (FsCall.rmdir parent name req.ctx.uid req.ctx.gid)
  let ret := r.ret
  w.send (Reply.err (neg_int ret))

/-- The handler `ll_rename`. -/
def ll_rename (F : FileSystem σ) (req : fuse_req) (parent : Nat) (name : String)
    (newparent : Nat) (newname : String) (w : World σ) : World σ :=
  let (r, w) :=
    w.invoke F (FsCall.rename parent name newparent newname req.ctx.uid req.ctx.gid)
  let ret := r.ret
  w.send (Reply.err (neg_int ret))

/-- The handler `ll_setattr`; `fi` may be a null pointer. -/
def ll_setattr (F : FileSystem σ) (req : fuse_req) (ino : Nat) (attr : Stat) (to_set : Int)
    (fi : Option fuse_file_info) (w : World σ) : World σ :=
  let fh := match fi with
    | some fi => fi.fh
    | Option.none => 0
  let (r, w) := w.invoke F (FsCall.setattr ino fh attr to_set req.ctx.uid req.ctx.gid)
  let attr := r.attr
  let ret := r.ret
  if ret = 0 then
    w.send (Reply.attr attr 0)
  else
    w.send (Reply.err (neg_int ret))

/-- The handler `ll_readlink`; storing the terminator outside `path` has no
defined result. -/
def ll_readlink (F : FileSystem σ) (req : fuse_req) (ino : Nat) (w : World σ) :
    Option (World σ) :=
  let path := char_array (PATH_MAX + 1)
  let (r, w) := w.invoke F (FsCall.readlink ino (path.length - 1) req.ctx.uid req.ctx.gid)
  let path := stored path r.buf
  let ret := r.ret
  if ret ≥ 0 then
    if ret.toNat < path.length then
      let path := path.set ret.toNat 0
      some (w.send (Reply.readlink (c_str path)))
    else
      Option.none
  else
    let r := to_int ret
    some (w.send (Reply.err (neg_int r)))

/-- The handler `ll_symlink`. -/
def ll_symlink (F : FileSystem σ) (req : fuse_req) (link : String) (parent : Nat)
    (name : String) (w : World σ) : World σ :=
  let fe := fuse_entry_param.zero
  let (r, w) := w.invoke F (FsCall.symlink link parent name req.ctx.uid req.ctx.gid)
  let fe := { fe with attr := r.attr }
  let ret := r.ret
  if ret = 0 then
    let fe := { fe with ino := fe.attr.st_ino }
    w.send (Reply.entry fe)
  else
    w.send (Reply.err (neg_int ret))

/-- The handler `ll_fsync`. -/
def ll_fsync (_req : fuse_req) (_ino : Nat) (_datasync : Int) (_fi : Option fuse_file_info)
    (w : World σ) : World σ :=
  w.send (Reply.err 0)

/-- The handler `ll_fsyncdir`. -/
def ll_fsyncdir (_req : fuse_req) (_ino : Nat) (_datasync : Int) (_fi : Option fuse_file_info)
    (w : World σ) : World σ :=
  w.send (Reply.err 0)

/-- The handler `ll_statfs`. -/
def ll_statfs (F : FileSystem σ) (_req : fuse_req) (ino : Nat) (w : World σ) : World σ :=
  let (r, w) := w.invoke F (FsCall.statfs ino)
  let stbuf := r.stbuf
  let ret := r.ret
  if ret = 0 then
    w.send (Reply.statfs stbuf)
  else
    w.send (Reply.err (neg_int ret))

/-- The handler `ll_link`. -/
def ll_link (F : FileSystem σ) (req : fuse_req) (ino : Nat) (newparent : Nat)
    (newname : String) (w : World σ) : World σ :=
  let fe := fuse_entry_param.zero
  let (r, w) := w.invoke F (FsCall.link ino newparent newname req.ctx.uid req.ctx.gid)
  let fe := { fe with attr := r.attr }
  let ret := r.ret
  if ret = 0 then
    let fe := { fe with ino := fe.attr.st_ino }
    w.send (Reply.entry fe)
  else
    w.send (Reply.err (neg_int ret))

/-- The handler `ll_access`. -/
def ll_access (F : FileSystem σ) (req : fuse_req) (ino : Nat) (mask : Int)
    (w : World σ) : World σ :=
  let (r, w) := w.invoke F (FsCall.access ino mask req.ctx.uid req.ctx.gid)
  let ret := r.ret
  w.send (Reply.err (neg_int ret))

/-- The handler `ll_mknod`. -/
def ll_mknod (F : FileSystem σ) (req : fuse_req) (parent : Nat) (name : String) (mode : Nat)
    (rdev : Nat) (w : World σ) : World σ :=
  let fe := fuse_entry_param.zero
  let (r, w) := w.invoke F (FsCall.mknod parent name mode rdev req.ctx.uid req.ctx.gid)
  let fe := { fe with attr := r.attr }
  let ret := r.ret
  if ret = 0 then
    let fe := { fe with ino := fe.attr.st_ino }
    w.send (Reply.entry fe)
  else
    w.send (Reply.err (neg_int ret))

/-- The handler `ll_fallocate`. -/
def ll_fallocate (_req : fuse_req) (_ino : Nat) (_mode : Int) (_offset : Int) (_length : Int)
    (_fi : Option fuse_file_info) (w : World σ) : World σ :=
  w.send (Reply.err 0)

end handlers

/-! ## The inode layer of `inode.cc` -/

/-- The members of `Inode` that `inode.cc` uses. -/
structure Inode where
  ino : Nat
  krefs : Int
  i_st : Stat
  deriving DecidableEq, Repr, Inhabited

/-- A regular inode: an `Inode` with its extent map `extents_`, an ordered map
from file offset to extent, held as the list of its entries in key order. -/
structure RegInode extends Inode where
  extents_ : List (Int × Extent)
  deriving DecidableEq, Repr, Inhabited

/-- How a destructor ends: it completes, or a failed `assert` aborts the
process after the given line was written to the error stream. -/
inductive Completion where
  | completed
  | aborted (message : String)
  deriving DecidableEq, Repr

/-- The destructor `Inode::~Inode`, with assertions compiled in. -/
def Inode.destructor (i : Inode) : Completion :=
  if i.krefs ≠ 0 then
    Completion.aborted ("inode " ++ toString i.ino ++ " freed with kref " ++ toString i.krefs)
  else
    Completion.completed

/-- The predicate `Inode::is_regular`. -/
def Inode.is_regular (i : Inode) : Bool := i.i_st.st_mode &&& S_IFREG != 0

/-- The predicate `Inode::is_directory`. -/
def Inode.is_directory (i : Inode) : Bool := i.i_st.st_mode &&& S_IFDIR != 0

/-- The predicate `Inode::is_symlink`. -/
def Inode.is_symlink (i : Inode) : Bool := i.i_st.st_mode &&& S_IFLNK != 0

/-- The loop of `RegInode::~RegInode`: the iterator walks the remaining
entries in key order and hands each extent to the facade. -/
def RegInode.free_extents {σ : Type} (F : FileSystem σ) :
    List (Int × Extent) → World σ → World σ
  | [], w => w
  | it :: rest, w => RegInode.free_extents F rest (w.invoke F (FsCall.free_space it.2)).2

/-- The body of `RegInode::~RegInode`, followed by the base class destructor
`Inode::~Inode`, which runs next when a regular inode is destroyed. -/
def RegInode.destructor {σ : Type} (F : FileSystem σ) (i : RegInode) (w : World σ) :
    RegInode × World σ × Completion :=
  let w := RegInode.free_extents F i.extents_ w
  let i := { i with extents_ := [] }
  (i, w, i.toInode.destructor)

/-! ## Option handling and start-up of `main` -/

/-- The option record `struct filesystem_opts`. -/
structure filesystem_opts where
  size : Nat
  debug : Bool
  deriving DecidableEq, Repr, Inhabited

/-- Key of the help options in `fs_fuse_opts`. -/
def KEY_HELP : Int := 0

/-- Key libfuse passes for an option matching no template (`<fuse_opt.h>`). -/
def FUSE_OPT_KEY_OPT : Int := -1

/-- Key libfuse passes for a non-option argument (`<fuse_opt.h>`). -/
def FUSE_OPT_KEY_NONOPT : Int := -2

/-- A command-line argument, by the entry of `fs_fuse_opts` it matches:
`size=N` with the number scanned by `%llu`, a `size=` whose value does not
scan, `-debug`, `-h` or `--help`, another option, or a non-option. -/
inductive Arg where
  | size (n : Nat)
  | size_malformed
  | debug
  | help
  | option (text : String)
  | nonopt (text : String)
  deriving DecidableEq, Repr

/-- What the option processing function tells the parser. -/
inductive ProcResult where
  | keep
  | exit (status : Int)
  | assert_failed
  deriving DecidableEq, Repr

/-- The function `fs_opt_proc`. -/
def fs_opt_proc (key : Int) : ProcResult :=
  if key = FUSE_OPT_KEY_OPT then ProcResult.keep
  else if key = FUSE_OPT_KEY_NONOPT then ProcResult.keep
  else if key = KEY_HELP then ProcResult.exit 1
  else ProcResult.assert_failed

/-- How the start-up sequence ends. -/
inductive Startup where
  | exit (status : Int)
  | assert_failed
  | constructed (size : Nat) (debug_level : Bool)
  deriving DecidableEq, Repr

/-- The result of `fuse_opt_parse`: the record was filled in, the parse
failed (`-1`), or the processing function ended the process, by `exit` or by
a failed `assert`. -/
inductive ParseResult where
  | ok (opts : filesystem_opts)
  | failed
  | exited (status : Int)
  | assert_failed
  deriving DecidableEq, Repr

/-- The call through the processing function for a keyed argument. -/
def call_proc (key : Int) (continue_with : ParseResult) : ParseResult :=
  match fs_opt_proc key with
  | ProcResult.keep => continue_with
  | ProcResult.exit status => ParseResult.exited status
  | ProcResult.assert_failed => ParseResult.assert_failed

/-- The library function `fuse_opt_parse` on the table `fs_fuse_opts`: a
`size=%llu` match stores the scanned number in the `size` member (a
`size_t`), `-debug` stores `1` in the `debug` member, the help options and all
unmatched arguments go through `fs_opt_proc`. -/
def fuse_opt_parse : List Arg → filesystem_opts → ParseResult
  | [], opts => ParseResult.ok opts
  | Arg.size n :: rest, opts => fuse_opt_parse rest { opts with size := to_size_t n }
  | Arg.size_malformed :: _, _ => ParseResult.failed
  | Arg.debug :: rest, opts => fuse_opt_parse rest { opts with debug := true }
  | Arg.help :: rest, opts => call_proc KEY_HELP (fuse_opt_parse rest opts)
  | Arg.option _ :: rest, opts => call_proc FUSE_OPT_KEY_OPT (fuse_opt_parse rest opts)
  | Arg.nonopt _ :: rest, opts => call_proc FUSE_OPT_KEY_NONOPT (fuse_opt_parse rest opts)

/-- The function `main` up to the construction `FileSystem fs(opts.size, console)`. -/
def main (args : List Arg) : Startup :=
  let opts : filesystem_opts := { size := to_size_t (shl_int 512 20), debug := false }
  match fuse_opt_parse args opts with
  | ParseResult.failed => Startup.exit 1
  | ParseResult.exited status => Startup.exit status
  | ParseResult.assert_failed => Startup.assert_failed
  | ParseResult.ok opts =>
    if opts.size > 0 then
      Startup.constructed opts.size opts.debug
    else
      Startup.assert_failed

/-! ## The operation registry of `main` -/

/-- A request as the kernel delivers it: one constructor per member of
`ll_oper` that `main` sets, with the arguments of that member. -/
inductive Request where
  | destroy
  | lookup (parent : Nat) (name : String)
  | getattr (ino : Nat) (fi : Option fuse_file_info)
  | opendir (ino : Nat) (fi : fuse_file_info)
  | readdir (ino : Nat) (size : Nat) (off : Int) (fi : fuse_file_info)
  | releasedir (ino : Nat) (fi : fuse_file_info)
  | open_file (ino : Nat) (fi : fuse_file_info)
  | read (ino : Nat) (size : Nat) (off : Int) (fi : fuse_file_info)
  | write_buf (ino : Nat) (bufv : List Nat) (off : Int) (fi : fuse_file_info)
  | create (parent : Nat) (name : String) (mode : Nat) (fi : fuse_file_info)
  | release (ino : Nat) (fi : fuse_file_info)
  | unlink (parent : Nat) (name : String)
  | mkdir (parent : Nat) (name : String) (mode : Nat)
  | rmdir (parent : Nat) (name : String)
  | rename (parent : Nat) (name : String) (newparent : Nat) (newname : String)
  | setattr (ino : Nat) (attr : Stat) (to_set : Int) (fi : Option fuse_file_info)
  | symlink (link : String) (parent : Nat) (name : String)
  | readlink (ino : Nat)
  | fsync (ino : Nat) (datasync : Int) (fi : Option fuse_file_info)
  | fsyncdir (ino : Nat) (datasync : Int) (fi : Option fuse_file_info)
  | statfs (ino : Nat)
  | link (ino : Nat) (newparent : Nat) (newname : String)
  | access (ino : Nat) (mask : Int)
  | mknod (parent : Nat) (name : String) (mode : Nat) (rdev : Nat)
  | forget (ino : Nat) (nlookup : Nat)
  | forget_multi (count : Nat) (forgets : List fuse_forget_data)
  | fallocate (ino : Nat) (mode : Int) (offset : Int) (length : Int)
      (fi : Option fuse_file_info)
  deriving DecidableEq, Repr

/-- The registry `ll_oper` filled in by `main`: the handler run for each
request.  No world results when the handler does not run to its end. -/
def ll_oper {σ : Type} (F : FileSystem σ) (req : fuse_req) (r : Request) (w : World σ) :
    Option (World σ) :=
  match r with
  | Request.destroy => some (ll_destroy F w)
  | Request.lookup parent name => some (ll_lookup F req parent name w)
  | Request.getattr ino fi => some (ll_getattr F req ino fi w)
  | Request.opendir ino fi => some (ll_opendir F req ino fi w)
  | Request.readdir ino size off fi => some (ll_readdir F req ino size off fi w)
  | Request.releasedir ino fi => some (ll_releasedir F req ino fi w)
  | Request.open_file ino fi => ll_open F req ino fi w
  | Request.read ino size off fi => some (ll_read F req ino size off fi w)
  | Request.write_buf ino bufv off fi => some (ll_write_buf F req ino bufv off fi w)
  | Request.create parent name mode fi => some (ll_create F req parent name mode fi w)
  | Request.release ino fi => some (ll_release F req ino fi w)
  | Request.unlink parent name => some (ll_unlink F req parent name w)
  | Request.mkdir parent name mode => some (ll_mkdir F req parent name mode w)
  | Request.rmdir parent name => some (ll_rmdir F req parent name w)
  | Request.rename parent name newparent newname =>
    some (ll_rename F req parent name newparent newname w)
  | Request.setattr ino attr to_set fi => some (ll_setattr F req ino attr to_set fi w)
  | Request.symlink link parent name => some (ll_symlink F req link parent name w)
  | Request.readlink ino => ll_readlink F req ino w
  | Request.fsync ino datasync fi => some (ll_fsync req ino datasync fi w)
  | Request.fsyncdir ino datasync fi => some (ll_fsyncdir req ino datasync fi w)
  | Request.statfs ino => some (ll_statfs F req ino w)
  | Request.link ino newparent newname => some (ll_link F req ino newparent newname w)
  | Request.access ino mask => some (ll_access F req ino mask w)
  | Request.mknod parent name mode rdev => some (ll_mknod F req parent name mode rdev w)
  | Request.forget ino nlookup => some (ll_forget F req ino nlookup w)
  | Request.forget_multi count forgets => ll_forget_multi F req count forgets w
  | Request.fallocate ino mode offset length fi =>
    some (ll_fallocate req ino mode offset length fi w)

/-! ## Notions used to state the properties -/

/-- A reply that tells the kernel the request succeeded: an entry, create,
attribute, open, write, buffer, link or statfs reply, and the error reply with
code `0`.  The empty reply `fuse_reply_none` answers nothing and is not one. -/
def Reply.is_success : Reply → Bool
  | Reply.err code => code == 0
  | Reply.none => false
  | Reply.entry _ => true
  | Reply.create _ _ => true
  | Reply.attr _ _ => true
  | Reply.opened _ => true
  | Reply.write _ => true
  | Reply.buf _ _ => true
  | Reply.readlink _ => true
  | Reply.statfs _ => true

/-- The reply a forwarding request owes the kernel when the facade reported
success, from what the facade handed back: the entry built from the returned
attributes for `lookup`, `mkdir`, `mknod`, `symlink` and `link` (with an entry
timeout of one second for `mkdir`), the same with the file handle for
`create`, the attributes for `getattr` and `setattr`, the file info for
`opendir` and, with the new handle, for `open`, the statistics for `statfs`,
error `0` for `unlink`, `rmdir`, `rename` and `access`, the first `ret` bytes
of the buffer for `read` and `readdir`, the count for `write_buf`, and the
terminated link target for `readlink`. -/
def success_reply (r : Request) (fr : FsRet) : Reply :=
  match r with
  | Request.lookup _ _ => Reply.entry (fuse_entry_param.mk fr.attr.st_ino 0 fr.attr 0 0)
  | Request.mknod _ _ _ _ => Reply.entry (fuse_entry_param.mk fr.attr.st_ino 0 fr.attr 0 0)
  | Request.symlink _ _ _ => Reply.entry (fuse_entry_param.mk fr.attr.st_ino 0 fr.attr 0 0)
  | Request.link _ _ _ => Reply.entry (fuse_entry_param.mk fr.attr.st_ino 0 fr.attr 0 0)
  | Request.mkdir _ _ _ => Reply.entry (fuse_entry_param.mk fr.attr.st_ino 0 fr.attr 0 1)
  | Request.create _ _ _ fi =>
    Reply.create (fuse_entry_param.mk fr.attr.st_ino 0 fr.attr 0 1) (fuse_file_info.mk fi.flags fr.fh)
  | Request.getattr _ _ => Reply.attr fr.attr 0
  | Request.setattr _ _ _ _ => Reply.attr fr.attr 0
  | Request.opendir _ fi => Reply.opened fi
  | Request.open_file _ fi => Reply.opened (fuse_file_info.mk fi.flags fr.fh)
  | Request.statfs _ => Reply.statfs fr.stbuf
  | Request.unlink _ _ => Reply.err 0
  | Request.rmdir _ _ => Reply.err 0
  | Request.rename _ _ _ _ => Reply.err 0
  | Request.access _ _ => Reply.err 0
  | Request.read _ size _ _ => Reply.buf (stored (char_array size) fr.buf) (to_size_t fr.ret)
  | Request.readdir _ size _ _ => Reply.buf (stored (char_array size) fr.buf) (to_size_t fr.ret)
  | Request.write_buf _ _ _ _ => Reply.write (to_size_t fr.ret)
  | Request.readlink _ =>
    Reply.readlink (c_str ((stored (char_array (PATH_MAX + 1)) fr.buf).set fr.ret.toNat 0))
  | _ => Reply.none

/-- The facade entry point whose result a request forwards to the kernel,
and whether that result is a byte count (`ssize_t`, success when `≥ 0`)
rather than a status (`int`, success when `0`).  The requests that forward
nothing have none: `destroy`, `release`, `releasedir`, `forget`,
`forget_multi`, `fsync`, `fsyncdir`, `fallocate`, and an `open` carrying
`O_CREAT`, which the bridge refuses by assertion. -/
def forwarded (req : fuse_req) : Request → Option (FsCall × Bool)
  | Request.getattr ino _ => some (FsCall.getattr ino req.ctx.uid req.ctx.gid, false)
  | Request.lookup parent name => some (FsCall.lookup parent name, false)
  | Request.opendir ino fi => some (FsCall.opendir ino fi.flags req.ctx.uid req.ctx.gid, false)
  | Request.open_file ino fi =>
    if fi.flags &&& O_CREAT = 0 then
      some (FsCall.open_file ino fi.flags req.ctx.uid req.ctx.gid, false)
    else
      Option.none
  | Request.create parent name mode fi =>
    some (FsCall.create parent name mode fi.flags req.ctx.uid req.ctx.gid, false)
  | Request.mkdir parent name mode =>
    some (FsCall.mkdir parent name mode req.ctx.uid req.ctx.gid, false)
  | Request.mknod parent name mode rdev =>
    some (FsCall.mknod parent name mode rdev req.ctx.uid req.ctx.gid, false)
  | Request.symlink link parent name =>
    some (FsCall.symlink link parent name req.ctx.uid req.ctx.gid, false)
  | Request.link ino newparent newname =>
    some (FsCall.link ino newparent newname req.ctx.uid req.ctx.gid, false)
  | Request.setattr ino attr to_set fi =>
    some (FsCall.setattr ino (match fi with
      | some fi => fi.fh
      | Option.none => 0) attr to_set req.ctx.uid req.ctx.gid, false)
  | Request.statfs ino => some (FsCall.statfs ino, false)
  | Request.unlink parent name => some (FsCall.unlink parent name req.ctx.uid req.ctx.gid, false)
  | Request.rmdir parent name => some (FsCall.rmdir parent name req.ctx.uid req.ctx.gid, false)
  | Request.rename parent name newparent newname =>
    some (FsCall.rename parent name newparent newname req.ctx.uid req.ctx.gid, false)
  | Request.access ino mask => some (FsCall.access ino mask req.ctx.uid req.ctx.gid, false)
  | Request.read _ size off fi => some (FsCall.read fi.fh off size, true)
  | Request.write_buf _ bufv off fi => some (FsCall.write_buf fi.fh bufv off, true)
  | Request.readdir ino size off _ => some (FsCall.readdir req ino size off, true)
  | Request.readlink ino => some (FsCall.readlink ino PATH_MAX req.ctx.uid req.ctx.gid, true)
  | _ => Option.none

/-- Whether the facade reported success: status `0`, or a byte count `≥ 0`. -/
def reported_success (byte_count : Bool) (ret : Int) : Prop :=
  if byte_count then 0 ≤ ret else ret = 0

/-- The forgets of a list issued one by one through `ll_forget`. -/
def forget_one_by_one {σ : Type} (F : FileSystem σ) (req : fuse_req)
    (forgets : List fuse_forget_data) (w : World σ) : World σ :=
  forgets.foldl (fun w f => ll_forget F req f.ino f.nlookup w) w

/-- The facade invocations of a list of forgets, one after the other. -/
def forget_each {σ : Type} (F : FileSystem σ) (forgets : List fuse_forget_data)
    (w : World σ) : World σ :=
  forgets.foldl (fun w f => (w.invoke F (FsCall.forget f.ino f.nlookup)).2) w

/-- The sum of the `nlookup` values a list of forgets names for inode `ino`. -/
def forgotten (forgets : List fuse_forget_data) (ino : Nat) : Int :=
  ((forgets.filter (fun f => f.ino = ino)).map (fun f => (f.nlookup : Int))).sum

/-- A facade over a one-point state whose every entry point hands back the
same values; it serves to evaluate the handlers on concrete requests. -/
def answer_all (ret : Int) (attr : Stat) (buf : List Nat) : FileSystem Unit :=
  fun _ s => ({ ret := ret, attr := attr, fh := 7, buf := buf, stbuf := Statvfs.zero }, s)

/-- Execute (search) permission in an `access` mask (`<unistd.h>`). -/
def X_OK : Int := 1

/-- Permission denied (`<errno.h>`). -/
def EACCES : Int := 13

/-- An example facade over a one-point state, for a filesystem whose directory
`1` has mode `0700` and owner `0:0` and holds one name, bound to the regular
file `2`: `access` on it is granted to uid `0` and denied with `-EACCES` to
everyone else, `getattr` describes the directory, and `lookup`, which is
handed no credentials, finds the file. -/
def locked_dir_fs : FileSystem Unit :=
  fun c s =>
    match c with
    | FsCall.access _ _ uid _ =>
      ({ ret := if uid = 0 then 0 else -EACCES, attr := Stat.zero, fh := 0, buf := [],
         stbuf := Statvfs.zero }, s)
    | FsCall.getattr _ _ _ =>
      ({ ret := 0, attr := { Stat.zero with st_ino := 1, st_mode := 0o700 ||| S_IFDIR },
         fh := 0, buf := [], stbuf := Statvfs.zero }, s)
    | FsCall.lookup _ _ =>
      ({ ret := 0, attr := { Stat.zero with st_ino := 2, st_mode := 0o644 ||| S_IFREG },
         fh := 0, buf := [], stbuf := Statvfs.zero }, s)
    | _ => ({ ret := 0, attr := Stat.zero, fh := 0, buf := [], stbuf := Statvfs.zero }, s)

/-- A facade whose state is the table of kernel reference counts and whose
`forget` subtracts `nlookup` from the count of `ino`; every other entry point
leaves the table alone. -/
def krefs_table : FileSystem (Nat → Int) :=
  fun c s =>
    match c with
    | FsCall.forget ino nlookup =>
      (default, fun j => if j = ino then s j - nlookup else s j)
    | _ => (default, s)

/-- Whether an argument is a well-formed `size=N`. -/
def Arg.is_size : Arg → Bool
  | Arg.size _ => true
  | _ => false

/-- Whether an argument ends the run before the options are all read: a help
option or a `size=` whose value does not scan. -/
def Arg.stops : Arg → Bool
  | Arg.help => true
  | Arg.size_malformed => true
  | _ => false

/-! ## Helper lemmas -/

theorem to_int_of_range (x : Int) (hlo : -2147483648 ≤ x) (hhi : x ≤ 2147483647) :
    to_int x = x := by
  unfold to_int
  omega

theorem neg_int_of_range (x : Int) (hlo : -2147483648 < x) (hhi : x ≤ 2147483647) :
    neg_int x = -x := by
  unfold neg_int
  exact to_int_of_range (-x) (by omega) (by omega)

theorem to_ssize_t_of_range (x : Int) (hlo : -9223372036854775808 ≤ x)
    (hhi : x ≤ 9223372036854775807) : to_ssize_t x = x := by
  unfold to_ssize_t
  omega

theorem and_mask_of_type_bits (mode : Nat) :
    mode &&& S_IFDIR = (mode &&& S_IFMT) &&& S_IFDIR := by
  rw [Nat.and_assoc]
  rfl

/-! ## The inode layer -/

/-- Claim C3: the destructor of an inode completes exactly when `krefs` is
zero, and it aborts on a failed assertion exactly when `krefs` is not zero. -/
theorem Inode_destructor_completes_iff_no_krefs (i : Inode) :
    (i.destructor = Completion.completed ↔ i.krefs = 0) ∧
    ((∃ message, i.destructor = Completion.aborted message) ↔ i.krefs ≠ 0) := by
  unfold Inode.destructor
  by_cases h : i.krefs = 0
  · simp [h]
  · simp [h]

/-- Claim C4, evaluated on the code: an inode of mode `0777 | S_IFLNK` answers
true to both `is_symlink` and `is_regular`, and an inode of mode
`0644 | S_IFREG` answers true to both `is_regular` and `is_symlink`, so on
these inodes two of the three predicates hold at once. -/
theorem is_regular_and_is_symlink_overlap :
    (Inode.mk 2 0 { Stat.zero with st_mode := 0o777 ||| S_IFLNK }).is_symlink = true ∧
    (Inode.mk 2 0 { Stat.zero with st_mode := 0o777 ||| S_IFLNK }).is_regular = true ∧
    (Inode.mk 2 0 { Stat.zero with st_mode := 0o777 ||| S_IFLNK }).is_directory = false ∧
    (Inode.mk 3 0 { Stat.zero with st_mode := 0o644 ||| S_IFREG }).is_regular = true ∧
    (Inode.mk 3 0 { Stat.zero with st_mode := 0o644 ||| S_IFREG }).is_symlink = true ∧
    (Inode.mk 3 0 { Stat.zero with st_mode := 0o644 ||| S_IFREG }).is_directory = false := by
  decide

/-- Claim C5: on an inode whose file-type bits are those of a regular file,
of a directory or of a symbolic link, whatever the other mode bits,
`is_directory` is true exactly when the file type is `S_IFDIR`. -/
theorem is_directory_exact (i : Inode)
    (htype : i.i_st.st_mode &&& S_IFMT = S_IFREG ∨ i.i_st.st_mode &&& S_IFMT = S_IFDIR ∨
      i.i_st.st_mode &&& S_IFMT = S_IFLNK) :
    i.is_directory = true ↔ i.i_st.st_mode &&& S_IFMT = S_IFDIR := by
  unfold Inode.is_directory
  rw [and_mask_of_type_bits]
  rcases htype with h | h | h <;> rw [h] <;> decide

theorem is_directory_exact_witness :
    ((Inode.mk 5 1 { Stat.zero with st_mode := 0o1755 ||| S_IFDIR }).i_st.st_mode &&& S_IFMT
        = S_IFDIR) ∧
    ((Inode.mk 5 1 { Stat.zero with st_mode := 0o1755 ||| S_IFDIR }).is_directory = true ↔
      (Inode.mk 5 1 { Stat.zero with st_mode := 0o1755 ||| S_IFDIR }).i_st.st_mode &&& S_IFMT
        = S_IFDIR) :=
  ⟨by decide, is_directory_exact _ (Or.inr (Or.inl (by decide)))⟩

/-! ## The handlers that do nothing -/

/-- Claim C7: `ll_fsync`, `ll_fsyncdir` and `ll_fallocate` send the one reply
`err 0` whatever their arguments, invoke no facade entry point, and leave the
filesystem state as it was. -/
theorem fsync_fsyncdir_fallocate_are_noops {σ : Type} (req : fuse_req) (ino : Nat)
    (datasync mode offset length : Int) (fi : Option fuse_file_info) (w : World σ) :
    ((ll_fsync req ino datasync fi w).trace = w.trace ++ [Event.reply (Reply.err 0)] ∧
      calls (ll_fsync req ino datasync fi w).trace = calls w.trace ∧
      (ll_fsync req ino datasync fi w).fs = w.fs) ∧
    ((ll_fsyncdir req ino datasync fi w).trace = w.trace ++ [Event.reply (Reply.err 0)] ∧
      calls (ll_fsyncdir req ino datasync fi w).trace = calls w.trace ∧
      (ll_fsyncdir req ino datasync fi w).fs = w.fs) ∧
    ((ll_fallocate req ino mode offset length fi w).trace
        = w.trace ++ [Event.reply (Reply.err 0)] ∧
      calls (ll_fallocate req ino mode offset length fi w).trace = calls w.trace ∧
      (ll_fallocate req ino mode offset length fi w).fs = w.fs) := by
  have hcalls : ∀ (t : List Event) (r : Reply), calls (t ++ [Event.reply r]) = calls t := by
    intro t r
    induction t with
    | nil => rfl
    | cons e t ih => cases e <;> simp [calls, ih]
  simp [ll_fsync, ll_fsyncdir, ll_fallocate, World.send, hcalls]

/-! ## Errno translation by the bridge -/

theorem status_reply {σ : Type} (w x : World σ) (c : FsCall) (ok : Reply) (ret : Int)
    (hx : x = if ret = 0 then World.send ok { fs := w.fs, trace := w.trace ++ [Event.call c] }
      else World.send (Reply.err (neg_int ret))
        { fs := w.fs, trace := w.trace ++ [Event.call c] })
    (hmin : INT_MIN < ret) (hle : ret ≤ 0) :
    ∃ rp, some x = some { fs := w.fs, trace := w.trace ++ [Event.call c, Event.reply rp] } ∧
      (ret = 0 → rp = ok) ∧ (ret ≠ 0 → rp = Reply.err (-ret)) := by
  have hneg : neg_int ret = -ret := neg_int_of_range ret hmin (by omega)
  subst hx
  by_cases h0 : ret = 0
  · exact ⟨ok, by simp [h0, World.send], fun _ => rfl, fun h => absurd h0 h⟩
  · exact ⟨Reply.err (-ret), by simp [h0, World.send, hneg], fun h => absurd h h0, fun _ => rfl⟩

theorem status_err_reply {σ : Type} (w x : World σ) (c : FsCall) (ret : Int)
    (hx : x = World.send (Reply.err (neg_int ret))
      { fs := w.fs, trace := w.trace ++ [Event.call c] })
    (hmin : INT_MIN < ret) (hle : ret ≤ 0) :
    ∃ rp, some x = some { fs := w.fs, trace := w.trace ++ [Event.call c, Event.reply rp] } ∧
      (ret = 0 → rp = Reply.err 0) ∧ (ret ≠ 0 → rp = Reply.err (-ret)) := by
  have hneg : neg_int ret = -ret := neg_int_of_range ret hmin (by omega)
  subst hx
  refine ⟨Reply.err (-ret), by simp [World.send, hneg], ?_, fun _ => rfl⟩
  intro h0
  simp [h0]

theorem count_reply {σ : Type} (w x : World σ) (c : FsCall) (ok : Reply) (ret code : Int)
    (hx : x = if ret ≥ 0 then World.send ok { fs := w.fs, trace := w.trace ++ [Event.call c] }
      else World.send (Reply.err code) { fs := w.fs, trace := w.trace ++ [Event.call c] })
    (hcode : ret < 0 → code = -ret) :
    ∃ rp, some x = some { fs := w.fs, trace := w.trace ++ [Event.call c, Event.reply rp] } ∧
      (0 ≤ ret → rp = ok) ∧ (¬ 0 ≤ ret → rp = Reply.err (-ret)) := by
  subst hx
  by_cases h0 : 0 ≤ ret
  · exact ⟨ok, by simp [h0, World.send], fun _ => rfl, fun h => absurd h0 h⟩
  · have hlt : ret < 0 := by omega
    exact ⟨Reply.err (-ret), by simp [h0, World.send, hcode hlt], fun h => absurd h h0,
      fun _ => rfl⟩

theorem err_reply_not_success (ret : Int) (h : ret ≠ 0) :
    (Reply.err (-ret)).is_success = false := by
  simp [Reply.is_success]
  omega

theorem narrowed_code (ret : Int) (hmin : INT_MIN < ret) (hlt : ret < 0) :
    neg_int (to_int ret) = -ret := by
  have h : INT_MIN = -2147483648 := rfl
  rw [to_int_of_range ret (by omega) (by omega)]
  exact neg_int_of_range ret (by omega) (by omega)

theorem widened_code (ret : Int) (hmin : INT_MIN < ret) (hlt : ret < 0) :
    to_int (neg_ssize_t ret) = -ret := by
  have h : INT_MIN = -2147483648 := rfl
  unfold neg_ssize_t
  rw [to_ssize_t_of_range (-ret) (by omega) (by omega)]
  exact to_int_of_range (-ret) (by omega) (by omega)

theorem length_char_array (n : Nat) : (char_array n).length = n := by
  simp [char_array]

theorem length_stored (old bytes : List Nat) : (stored old bytes).length = old.length := by
  simp only [stored, List.length_append, List.length_take, List.length_drop]
  omega

theorem take_stored (old bytes : List Nat) (n : Nat) (hn : n ≤ bytes.length)
    (hold : n ≤ old.length) : (stored old bytes).take n = bytes.take n := by
  unfold stored
  rw [List.take_append_of_le_length (by simp; omega), List.take_take]
  congr 1
  omega

theorem c_str_set_nul (a : List Nat) (n : Nat) (hn : n < a.length)
    (hnul : ∀ b ∈ a.take n, b ≠ 0) : c_str (a.set n 0) = a.take n := by
  induction a generalizing n with
  | nil => simp at hn
  | cons x t ih =>
    cases n with
    | zero => simp [c_str, List.takeWhile]
    | succ m =>
      have hx : x ≠ 0 := hnul x (by simp)
      have ht : c_str (t.set m 0) = t.take m :=
        ih m (by simpa using hn) (fun b hb => hnul b (by simp [hb]))
      have hb : (x != 0) = true := by simpa using hx
      simp only [c_str] at ht
      simp only [c_str, List.set_cons_succ, List.takeWhile_cons, hb, ht, List.take_succ_cons,
        if_true]

theorem ll_readlink_count {σ : Type} (F : FileSystem σ) (req : fuse_req) (ino : Nat)
    (w : World σ)
    (h0 : 0 ≤ (F (FsCall.readlink ino PATH_MAX req.ctx.uid req.ctx.gid) w.fs).1.ret)
    (hcap : (F (FsCall.readlink ino PATH_MAX req.ctx.uid req.ctx.gid) w.fs).1.ret ≤ PATH_MAX) :
    ll_readlink F req ino w = some
      { fs := (F (FsCall.readlink ino PATH_MAX req.ctx.uid req.ctx.gid) w.fs).2,
        trace := w.trace ++ [Event.call (FsCall.readlink ino PATH_MAX req.ctx.uid req.ctx.gid),
          Event.reply (Reply.readlink (c_str ((stored (char_array (PATH_MAX + 1))
            (F (FsCall.readlink ino PATH_MAX req.ctx.uid req.ctx.gid) w.fs).1.buf).set
            (F (FsCall.readlink ino PATH_MAX req.ctx.uid req.ctx.gid) w.fs).1.ret.toNat 0)))] } := by
  have hlt : (F (FsCall.readlink ino PATH_MAX req.ctx.uid req.ctx.gid) w.fs).1.ret.toNat
      < PATH_MAX + 1 := by omega
  simp [ll_readlink, World.invoke, World.send, length_char_array, length_stored, h0, hlt]

theorem ll_readlink_error {σ : Type} (F : FileSystem σ) (req : fuse_req) (ino : Nat)
    (w : World σ)
    (hneg : (F (FsCall.readlink ino PATH_MAX req.ctx.uid req.ctx.gid) w.fs).1.ret < 0)
    (hmin : INT_MIN < (F (FsCall.readlink ino PATH_MAX req.ctx.uid req.ctx.gid) w.fs).1.ret) :
    ll_readlink F req ino w = some
      { fs := (F (FsCall.readlink ino PATH_MAX req.ctx.uid req.ctx.gid) w.fs).2,
        trace := w.trace ++ [Event.call (FsCall.readlink ino PATH_MAX req.ctx.uid req.ctx.gid),
          Event.reply (Reply.err
            (-(F (FsCall.readlink ino PATH_MAX req.ctx.uid req.ctx.gid) w.fs).1.ret))] } := by
  have h0 : ¬ 0 ≤ (F (FsCall.readlink ino PATH_MAX req.ctx.uid req.ctx.gid) w.fs).1.ret := by
    omega
  simp [ll_readlink, World.invoke, World.send, length_char_array, h0,
    narrowed_code _ hmin hneg]

/-- Claim C1: for every request that forwards a facade result `ret` (a status
`0` or `-E` with `E` a positive `int` errno, or a byte count that the reply
buffer can hold), the handler invokes that one facade entry point and then
sends exactly one reply.  When the facade reported success the reply is the
success reply of that request (the entry, attribute, open, create, statfs,
write or buffer reply built from what the facade handed back, or error `0`),
and it is a success reply; otherwise the reply is the error reply with code
`-ret`, which is not a success reply. -/
theorem bridge_errno_translation {σ : Type} (F : FileSystem σ) (req : fuse_req) (r : Request)
    (c : FsCall) (byte_count : Bool) (w : World σ)
    (hfw : forwarded req r = some (c, byte_count))
    (hmin : INT_MIN < (F c w.fs).1.ret)
    (hstatus : byte_count = false → (F c w.fs).1.ret ≤ 0)
    (hcap : ∀ ino, r = Request.readlink ino → (F c w.fs).1.ret ≤ PATH_MAX) :
    ∃ rp, ll_oper F req r w
        = some { fs := (F c w.fs).2, trace := w.trace ++ [Event.call c, Event.reply rp] } ∧
      (rp.is_success = true ↔ reported_success byte_count (F c w.fs).1.ret) ∧
      (reported_success byte_count (F c w.fs).1.ret → rp = success_reply r (F c w.fs).1) ∧
      (¬ reported_success byte_count (F c w.fs).1.ret → rp = Reply.err (-(F c w.fs).1.ret)) := by
  have close_status : ∀ (rp : Reply) (ret : Int) (ok : Reply), ok.is_success = true →
      (ret = 0 → rp = ok) → (ret ≠ 0 → rp = Reply.err (-ret)) →
      (rp.is_success = true ↔ reported_success false ret) ∧
      (reported_success false ret → rp = ok) ∧
      (¬ reported_success false ret → rp = Reply.err (-ret)) := by
    intro rp ret ok hok hs he
    by_cases h0 : ret = 0
    · simp [reported_success, h0, hs h0, hok]
    · simp [reported_success, h0, he h0, err_reply_not_success ret h0]
  have close_count : ∀ (rp : Reply) (ret : Int) (ok : Reply), ok.is_success = true →
      (0 ≤ ret → rp = ok) → (¬ 0 ≤ ret → rp = Reply.err (-ret)) →
      (rp.is_success = true ↔ reported_success true ret) ∧
      (reported_success true ret → rp = ok) ∧
      (¬ reported_success true ret → rp = Reply.err (-ret)) := by
    intro rp ret ok hok hs he
    by_cases h0 : 0 ≤ ret
    · simp [reported_success, h0, hs h0, hok]
    · simp [reported_success, h0, he h0, err_reply_not_success ret (by omega)]
  cases r <;> simp [forwarded] at hfw
  case open_file ino fi =>
    obtain ⟨hflags, rfl, rfl⟩ := hfw
    have hx : ll_oper F req (Request.open_file ino fi) w = some
        (if (F (FsCall.open_file ino fi.flags req.ctx.uid req.ctx.gid) w.fs).1.ret = 0 then
          World.send (Reply.opened { fi with
              fh := (F (FsCall.open_file ino fi.flags req.ctx.uid req.ctx.gid) w.fs).1.fh })
            { fs := (F (FsCall.open_file ino fi.flags req.ctx.uid req.ctx.gid) w.fs).2,
              trace := w.trace ++ [Event.call
                (FsCall.open_file ino fi.flags req.ctx.uid req.ctx.gid)] }
        else
          World.send (Reply.err (neg_int
              (F (FsCall.open_file ino fi.flags req.ctx.uid req.ctx.gid) w.fs).1.ret))
            { fs := (F (FsCall.open_file ino fi.flags req.ctx.uid req.ctx.gid) w.fs).2,
              trace := w.trace ++ [Event.call
                (FsCall.open_file ino fi.flags req.ctx.uid req.ctx.gid)] }) := by
      by_cases h0 : (F (FsCall.open_file ino fi.flags req.ctx.uid req.ctx.gid) w.fs).1.ret = 0
      · simp [ll_oper, ll_open, hflags, World.invoke, h0]
      · simp [ll_oper, ll_open, hflags, World.invoke, h0]
    rw [hx]
    obtain ⟨rp, hrun, hs, he⟩ := status_reply ⟨_, w.trace⟩ _ _ _ _ rfl hmin (hstatus rfl)
    exact ⟨rp, hrun, close_status rp _ _ rfl hs he⟩
  case readlink ino =>
    obtain ⟨rfl, rfl⟩ := hfw
    by_cases h0 : 0 ≤ (F (FsCall.readlink ino PATH_MAX req.ctx.uid req.ctx.gid) w.fs).1.ret
    · exact ⟨_, ll_readlink_count F req ino w h0 (hcap ino rfl),
        by simp [reported_success, h0, Reply.is_success], fun _ => rfl,
        by simp [reported_success, h0]⟩
    · refine ⟨_, ll_readlink_error F req ino w (by omega) hmin, ?_,
        fun h => absurd h (by simpa [reported_success] using h0), fun _ => rfl⟩
      simp [reported_success, h0, err_reply_not_success _ (show
        (F (FsCall.readlink ino PATH_MAX req.ctx.uid req.ctx.gid) w.fs).1.ret ≠ 0 by omega)]
  case getattr ino fi =>
    obtain ⟨rfl, rfl⟩ := hfw
    obtain ⟨rp, hrun, hs, he⟩ := status_reply ⟨_, w.trace⟩ _ _ _ _ rfl hmin (hstatus rfl)
    refine ⟨rp, hrun, close_status rp _ (success_reply (Request.getattr ino fi)
      (F (FsCall.getattr ino req.ctx.uid req.ctx.gid) w.fs).1) rfl (fun h0 => ?_) he⟩
    rw [hs h0, h0]
    rfl
  all_goals
    obtain ⟨rfl, rfl⟩ := hfw
    first
    | (obtain ⟨rp, hrun, hs, he⟩ := status_reply ⟨_, w.trace⟩ _ _ _ _ rfl hmin (hstatus rfl)
       exact ⟨rp, hrun, close_status rp _ _ rfl hs he⟩)
    | (obtain ⟨rp, hrun, hs, he⟩ := status_err_reply ⟨_, w.trace⟩ _ _ _ rfl hmin (hstatus rfl)
       exact ⟨rp, hrun, close_status rp _ _ rfl hs he⟩)
    | (obtain ⟨rp, hrun, hs, he⟩ :=
         count_reply ⟨_, w.trace⟩ _ _ _ _ _ rfl (widened_code _ hmin)
       exact ⟨rp, hrun, close_count rp _ _ rfl hs he⟩)
    | (obtain ⟨rp, hrun, hs, he⟩ :=
         count_reply ⟨_, w.trace⟩ _ _ _ _ _ rfl (narrowed_code _ hmin)
       exact ⟨rp, hrun, close_count rp _ _ rfl hs he⟩)

theorem bridge_errno_translation_witness :
    (forwarded ⟨⟨1000, 1000, 1⟩⟩ (Request.unlink 1 "a")
        = some (FsCall.unlink 1 "a" 1000 1000, false) ∧
      INT_MIN < (-2 : Int) ∧ (-2 : Int) ≤ 0 ∧
      ∃ rp, ll_oper (answer_all (-2) Stat.zero []) ⟨⟨1000, 1000, 1⟩⟩ (Request.unlink 1 "a")
          ⟨(), []⟩
          = some { fs := (), trace := [] ++ [Event.call (FsCall.unlink 1 "a" 1000 1000),
              Event.reply rp] } ∧
        (rp.is_success = true ↔ reported_success false (-2)) ∧
        (reported_success false (-2) → rp = Reply.err 0) ∧
        (¬ reported_success false (-2) → rp = Reply.err (- (-2)))) ∧
    (forwarded ⟨⟨1000, 1000, 1⟩⟩ (Request.read 4 16 0 ⟨0, 7⟩) = some (FsCall.read 7 0 16, true) ∧
      INT_MIN < (5 : Int) ∧
      ∃ rp, ll_oper (answer_all 5 Stat.zero [104, 101, 108, 108, 111]) ⟨⟨1000, 1000, 1⟩⟩
          (Request.read 4 16 0 ⟨0, 7⟩) ⟨(), []⟩
          = some { fs := (), trace := [] ++ [Event.call (FsCall.read 7 0 16),
              Event.reply rp] } ∧
        (rp.is_success = true ↔ reported_success true 5) ∧
        (reported_success true 5 → rp = Reply.buf
          (stored (char_array 16) [104, 101, 108, 108, 111]) (to_size_t 5)) ∧
        (¬ reported_success true 5 → rp = Reply.err (- 5))) :=
  ⟨⟨rfl, by decide, by decide,
    bridge_errno_translation (answer_all (-2) Stat.zero []) ⟨⟨1000, 1000, 1⟩⟩
      (Request.unlink 1 "a") (FsCall.unlink 1 "a" 1000 1000) false ⟨(), []⟩ rfl (by decide)
      (fun _ => by decide) (fun ino h => by cases h)⟩,
   ⟨rfl, by decide,
    bridge_errno_translation (answer_all 5 Stat.zero [104, 101, 108, 108, 111])
      ⟨⟨1000, 1000, 1⟩⟩ (Request.read 4 16 0 ⟨0, 7⟩) (FsCall.read 7 0 16) true ⟨(), []⟩ rfl
      (by decide) (fun h => by cases h) (fun ino h => by cases h)⟩⟩

/-! ## Lookup and the caller -/

/-- Claim C2, evaluated on the code: `ll_lookup` invokes the facade with the
parent and the name and nothing of the caller, and replies with the entry
when the facade returns `0` and with the negated result otherwise, so two
callers get the same outcome on the same state; on a filesystem whose
directory `1` grants execute permission to uid `0` only, the caller
`1000:1000` is refused by `ll_access` with `EACCES` and yet receives from
`ll_lookup` the very entry the caller `0:0` receives. -/
theorem ll_lookup_ignores_the_caller {σ : Type} (F : FileSystem σ) (req₁ req₂ : fuse_req)
    (parent : Nat) (name : String) (w : World σ) :
    ll_lookup F req₁ parent name w
      = { fs := (F (FsCall.lookup parent name) w.fs).2,
          trace := w.trace ++ [Event.call (FsCall.lookup parent name),
            Event.reply (if (F (FsCall.lookup parent name) w.fs).1.ret = 0 then
              Reply.entry (fuse_entry_param.mk
                (F (FsCall.lookup parent name) w.fs).1.attr.st_ino 0
                (F (FsCall.lookup parent name) w.fs).1.attr 0 0)
            else Reply.err (neg_int (F (FsCall.lookup parent name) w.fs).1.ret))] } ∧
    ll_lookup F req₂ parent name w = ll_lookup F req₁ parent name w ∧
    (ll_access locked_dir_fs ⟨⟨1000, 1000, 1⟩⟩ 1 X_OK ⟨(), []⟩).trace
      = [Event.call (FsCall.access 1 X_OK 1000 1000), Event.reply (Reply.err EACCES)] ∧
    (ll_lookup locked_dir_fs ⟨⟨1000, 1000, 1⟩⟩ 1 "a" ⟨(), []⟩).trace
      = [Event.call (FsCall.lookup 1 "a"), Event.reply (Reply.entry (fuse_entry_param.mk 2 0
          { Stat.zero with st_ino := 2, st_mode := 0o644 ||| S_IFREG } 0 0))] ∧
    (ll_lookup locked_dir_fs ⟨⟨0, 0, 1⟩⟩ 1 "a" ⟨(), []⟩).trace
      = (ll_lookup locked_dir_fs ⟨⟨1000, 1000, 1⟩⟩ 1 "a" ⟨(), []⟩).trace := by
  refine ⟨?_, rfl, by decide, rfl, rfl⟩
  by_cases h0 : (F (FsCall.lookup parent name) w.fs).1.ret = 0
  · simp [ll_lookup, World.invoke, World.send, h0, fuse_entry_param.zero]
  · simp [ll_lookup, World.invoke, World.send, h0]

/-! ## Destruction of a regular inode -/

theorem free_extents_trace {σ : Type} (F : FileSystem σ) (l : List (Int × Extent))
    (w : World σ) :
    (RegInode.free_extents F l w).trace
      = w.trace ++ l.map (fun it => Event.call (FsCall.free_space it.2)) ∧
    (RegInode.free_extents F l w).fs
      = l.foldl (fun s it => (F (FsCall.free_space it.2) s).2) w.fs := by
  induction l generalizing w with
  | nil => simp [RegInode.free_extents]
  | cons it rest ih =>
    obtain ⟨h1, h2⟩ := ih (w.invoke F (FsCall.free_space it.2)).2
    simp only [RegInode.free_extents, h1, h2]
    simp [World.invoke]

/-- Claim C6: whatever the reference counts of a regular inode, its
destructor hands every extent of the extent map to `free_space` exactly once,
entry after entry in the order of the map, which is the order of increasing
offsets, invokes nothing else, and leaves the extent map empty. -/
theorem RegInode_destructor_frees_every_extent {σ : Type} (F : FileSystem σ) (i : RegInode)
    (w : World σ) (hmap : i.extents_.Pairwise (fun a b => a.1 < b.1)) :
    (RegInode.destructor F i w).2.1.trace
      = w.trace ++ i.extents_.map (fun it => Event.call (FsCall.free_space it.2)) ∧
    (i.extents_.map (fun it => it.1)).Pairwise (fun a b => a < b) ∧
    (RegInode.destructor F i w).2.1.fs
      = i.extents_.foldl (fun s it => (F (FsCall.free_space it.2) s).2) w.fs ∧
    (RegInode.destructor F i w).1.extents_ = [] := by
  refine ⟨(free_extents_trace F i.extents_ w).1, ?_, (free_extents_trace F i.extents_ w).2, rfl⟩
  rw [List.pairwise_map]
  exact hmap

theorem RegInode_destructor_frees_every_extent_witness :
    ([((0 : Int), Extent.mk 0 8192 4096), (4096, Extent.mk 0 4096 5)] :
        List (Int × Extent)).Pairwise (fun a b => a.1 < b.1) ∧
    (RegInode.destructor (answer_all 0 Stat.zero [])
        (RegInode.mk (Inode.mk 9 3 Stat.zero)
          [((0 : Int), Extent.mk 0 8192 4096), (4096, Extent.mk 0 4096 5)])
        ⟨(), []⟩).2.1.trace
      = [Event.call (FsCall.free_space (Extent.mk 0 8192 4096)),
          Event.call (FsCall.free_space (Extent.mk 0 4096 5))] :=
  ⟨by decide,
    (RegInode_destructor_frees_every_extent (answer_all 0 Stat.zero [])
      (RegInode.mk (Inode.mk 9 3 Stat.zero)
        [((0 : Int), Extent.mk 0 8192 4096), (4096, Extent.mk 0 4096 5)])
      ⟨(), []⟩ (by decide)).1⟩

/-! ## Termination of the link target in `ll_readlink` -/

/-- Claim C9: `ll_readlink` hands the facade a capacity of `PATH_MAX` bytes
of a buffer of `PATH_MAX + 1` cells.  When the facade returns a count `ret`
with `0 ≤ ret ≤ PATH_MAX`, having stored at least `ret` bytes none of which is
NUL, the terminator lands inside the buffer and the reply is the string made
of exactly the first `ret` stored bytes; when it returns `ret < 0` (the
negative of an `int` errno) the reply is the error `-ret`, whatever the
buffer holds. -/
theorem ll_readlink_terminates_in_bounds {σ : Type} (F : FileSystem σ) (req : fuse_req)
    (ino : Nat) (w : World σ)
    (hmin : INT_MIN < (F (FsCall.readlink ino PATH_MAX req.ctx.uid req.ctx.gid) w.fs).1.ret)
    (hcap : (F (FsCall.readlink ino PATH_MAX req.ctx.uid req.ctx.gid) w.fs).1.ret ≤ PATH_MAX)
    (hlen : (F (FsCall.readlink ino PATH_MAX req.ctx.uid req.ctx.gid) w.fs).1.ret
      ≤ (F (FsCall.readlink ino PATH_MAX req.ctx.uid req.ctx.gid) w.fs).1.buf.length)
    (hnul : ∀ b ∈ (F (FsCall.readlink ino PATH_MAX req.ctx.uid req.ctx.gid) w.fs).1.buf.take
      (F (FsCall.readlink ino PATH_MAX req.ctx.uid req.ctx.gid) w.fs).1.ret.toNat, b ≠ 0) :
    (char_array (PATH_MAX + 1)).length = PATH_MAX + 1 ∧
    ∃ rp, ll_readlink F req ino w = some
        { fs := (F (FsCall.readlink ino PATH_MAX req.ctx.uid req.ctx.gid) w.fs).2,
          trace := w.trace ++ [Event.call (FsCall.readlink ino PATH_MAX req.ctx.uid req.ctx.gid),
            Event.reply rp] } ∧
      (0 ≤ (F (FsCall.readlink ino PATH_MAX req.ctx.uid req.ctx.gid) w.fs).1.ret →
        (F (FsCall.readlink ino PATH_MAX req.ctx.uid req.ctx.gid) w.fs).1.ret.toNat
          < (stored (char_array (PATH_MAX + 1))
            (F (FsCall.readlink ino PATH_MAX req.ctx.uid req.ctx.gid) w.fs).1.buf).length ∧
        rp = Reply.readlink
          ((F (FsCall.readlink ino PATH_MAX req.ctx.uid req.ctx.gid) w.fs).1.buf.take
            (F (FsCall.readlink ino PATH_MAX req.ctx.uid req.ctx.gid) w.fs).1.ret.toNat)) ∧
      ((F (FsCall.readlink ino PATH_MAX req.ctx.uid req.ctx.gid) w.fs).1.ret < 0 →
        rp = Reply.err (-(F (FsCall.readlink ino PATH_MAX req.ctx.uid req.ctx.gid) w.fs).1.ret)) := by
  refine ⟨length_char_array _, ?_⟩
  generalize hr : (F (FsCall.readlink ino PATH_MAX req.ctx.uid req.ctx.gid) w.fs).1 = r at *
  by_cases h0 : 0 ≤ r.ret
  · have hin : r.ret.toNat < (stored (char_array (PATH_MAX + 1)) r.buf).length := by
      rw [length_stored, length_char_array]
      omega
    have hkeep : (stored (char_array (PATH_MAX + 1)) r.buf).take r.ret.toNat
        = r.buf.take r.ret.toNat :=
      take_stored _ _ _ (by omega) (by rw [length_char_array]; omega)
    have hstr : c_str ((stored (char_array (PATH_MAX + 1)) r.buf).set r.ret.toNat 0)
        = r.buf.take r.ret.toNat := by
      rw [c_str_set_nul _ _ hin (by rw [hkeep]; exact hnul), hkeep]
    refine ⟨Reply.readlink (r.buf.take r.ret.toNat), ?_, fun _ => ⟨hin, rfl⟩,
      fun hneg => absurd h0 (by omega)⟩
    rw [← hstr, ← hr]
    exact ll_readlink_count F req ino w (by rw [hr]; exact h0) (by rw [hr]; exact hcap)
  · refine ⟨Reply.err (-r.ret), ?_, fun hpos => absurd hpos h0, fun _ => rfl⟩
    rw [← hr]
    exact ll_readlink_error F req ino w (by rw [hr]; omega) (by rw [hr]; exact hmin)

theorem ll_readlink_terminates_in_bounds_witness :
    INT_MIN < (1 : Int) ∧ (1 : Int) ≤ PATH_MAX ∧ (1 : Int) ≤ ([102] : List Nat).length ∧
    (∀ b ∈ ([102] : List Nat).take (1 : Int).toNat, b ≠ 0) ∧
    ∃ rp, ll_readlink (answer_all 1 Stat.zero [102]) ⟨⟨1000, 1000, 1⟩⟩ 4 ⟨(), []⟩ = some
        { fs := (), trace := [] ++ [Event.call (FsCall.readlink 4 PATH_MAX 1000 1000),
            Event.reply rp] } ∧
      (0 ≤ (1 : Int) →
        (1 : Int).toNat < (stored (char_array (PATH_MAX + 1)) [102]).length ∧
        rp = Reply.readlink (([102] : List Nat).take (1 : Int).toNat)) ∧
      ((1 : Int) < 0 → rp = Reply.err (-(1 : Int))) :=
  ⟨by decide, by decide, by decide, by decide,
    (ll_readlink_terminates_in_bounds (answer_all 1 Stat.zero [102]) ⟨⟨1000, 1000, 1⟩⟩ 4
      ⟨(), []⟩ (by decide) (by decide) (by decide) (by decide)).2⟩

/-! ## Batched forget -/

theorem ll_forget_multi_loop_eq {σ : Type} (F : FileSystem σ) (forgets : List fuse_forget_data)
    (n : Nat) : ∀ (i : Nat) (w : World σ), i ≤ forgets.length → forgets.length - i = n →
      ll_forget_multi_loop F forgets.length forgets i w
        = some (forget_each F (forgets.drop i) w) := by
  induction n with
  | zero =>
    intro i w hi hn
    have hlen : ¬ i < forgets.length := by omega
    rw [ll_forget_multi_loop]
    simp [hlen, forget_each, List.drop_of_length_le (Nat.le_of_not_lt hlen)]
  | succ n ih =>
    intro i w hi hn
    have hlt : i < forgets.length := by omega
    rw [ll_forget_multi_loop]
    simp only [hlt, if_true, List.get?_eq_getElem?, List.getElem?_eq_getElem]
    rw [ih (i + 1) _ (by omega) (by omega)]
    congr 1
    conv_rhs => rw [List.drop_eq_getElem_cons hlt]
    rfl

theorem forget_each_trace {σ : Type} (F : FileSystem σ) (forgets : List fuse_forget_data)
    (w : World σ) :
    (forget_each F forgets w).trace
      = w.trace ++ forgets.map (fun f => Event.call (FsCall.forget f.ino f.nlookup)) := by
  induction forgets generalizing w with
  | nil => simp [forget_each]
  | cons f rest ih =>
    have h := ih (w.invoke F (FsCall.forget f.ino f.nlookup)).2
    simp only [forget_each, List.foldl_cons] at h ⊢
    rw [h]
    simp [World.invoke]

theorem forget_each_fs {σ : Type} (F : FileSystem σ) (req : fuse_req)
    (forgets : List fuse_forget_data) (w : World σ) :
    (forget_each F forgets w).fs = (forget_one_by_one F req forgets w).fs := by
  have key : ∀ (l : List fuse_forget_data) (w₁ w₂ : World σ), w₁.fs = w₂.fs →
      (forget_each F l w₁).fs = (forget_one_by_one F req l w₂).fs := by
    intro l
    induction l with
    | nil => intro w₁ w₂ h; simpa [forget_each, forget_one_by_one] using h
    | cons f rest ih =>
      intro w₁ w₂ h
      simp only [forget_each, forget_one_by_one, List.foldl_cons]
      exact ih _ _ (by simp [World.invoke, ll_forget, World.send, h])
  exact key forgets w w rfl

theorem forget_each_krefs {σ : Type} (F : FileSystem σ) (krefs : σ → Nat → Int)
    (forgets : List fuse_forget_data) (j : Nat) : ∀ (w : World σ),
    (∀ (k : Nat) (f : fuse_forget_data), forgets.get? k = some f →
      krefs (F (FsCall.forget f.ino f.nlookup) (forget_each F (forgets.take k) w).fs).2 j
        = if j = f.ino then krefs (forget_each F (forgets.take k) w).fs j - f.nlookup
          else krefs (forget_each F (forgets.take k) w).fs j) →
    krefs (forget_each F forgets w).fs j = krefs w.fs j - forgotten forgets j := by
  induction forgets with
  | nil => intro w _; simp [forget_each, forgotten]
  | cons f rest ih =>
    intro w hstep
    have hhead := hstep 0 f rfl
    simp only [List.take_zero, forget_each, List.foldl_nil] at hhead
    have hrest := ih (w.invoke F (FsCall.forget f.ino f.nlookup)).2 (fun k g hg => by
      have h := hstep (k + 1) g (by simpa using hg)
      simpa only [List.take_succ_cons, forget_each, List.foldl_cons] using h)
    simp only [forget_each, List.foldl_cons] at hrest ⊢
    rw [hrest]
    simp only [World.invoke, hhead, forgotten, List.filter_cons]
    by_cases hj : j = f.ino
    · have hd : decide (f.ino = j) = true := by simp [hj]
      simp only [hj, if_true] at hd ⊢
      simp
      omega
    · have hd : decide (f.ino = j) = false := by simp; omega
      simp [hj, hd]

/-- Claim C10: on a list of `count` forgets, `ll_forget_multi` invokes the
facade entry point `forget` once per element, in list order, with the `ino`
and `nlookup` of that element, and then sends one empty reply; the filesystem
state it leaves is the state left by the same forgets issued one by one
through `ll_forget`; and for any reading `krefs` of the reference counts off
the state, if each of these forgets, at the state it is issued in, subtracts
its `nlookup` from the `krefs` of its `ino` and leaves the other counts alone,
then the `krefs` of each inode drops by the sum of the `nlookup` values listed
for it. -/
theorem ll_forget_multi_is_sequential_forget {σ : Type} (F : FileSystem σ) (req : fuse_req)
    (count : Nat) (forgets : List fuse_forget_data) (w : World σ)
    (hcount : count = forgets.length) :
    ∃ w', ll_forget_multi F req count forgets w = some w' ∧
      w'.trace = w.trace ++ forgets.map (fun f => Event.call (FsCall.forget f.ino f.nlookup))
        ++ [Event.reply Reply.none] ∧
      w'.fs = (forget_one_by_one F req forgets w).fs ∧
      ∀ (krefs : σ → Nat → Int) (j : Nat),
        (∀ (k : Nat) (f : fuse_forget_data), forgets.get? k = some f →
          krefs (F (FsCall.forget f.ino f.nlookup)
              (forget_one_by_one F req (forgets.take k) w).fs).2 j
            = if j = f.ino then
                krefs (forget_one_by_one F req (forgets.take k) w).fs j - f.nlookup
              else krefs (forget_one_by_one F req (forgets.take k) w).fs j) →
        krefs w'.fs j = krefs w.fs j - forgotten forgets j := by
  subst hcount
  refine ⟨(forget_each F forgets w).send Reply.none, ?_, ?_, ?_, ?_⟩
  · have h := ll_forget_multi_loop_eq F forgets forgets.length 0 w (Nat.zero_le _) rfl
    simp only [List.drop_zero] at h
    simp only [ll_forget_multi, h]
  · simp only [World.send, forget_each_trace]
  · exact forget_each_fs F req forgets w
  · intro krefs j hstep
    refine forget_each_krefs F krefs forgets j w (fun k f hf => ?_)
    rw [forget_each_fs F req (forgets.take k) w]
    exact hstep k f hf

theorem ll_forget_multi_is_sequential_forget_witness :
    (3 : Nat) = ([⟨2, 1⟩, ⟨3, 2⟩, ⟨2, 3⟩] : List fuse_forget_data).length ∧
    ∃ w', ll_forget_multi krefs_table ⟨⟨0, 0, 1⟩⟩ 3 [⟨2, 1⟩, ⟨3, 2⟩, ⟨2, 3⟩]
        ⟨fun _ => 5, []⟩ = some w' ∧
      w'.trace = [] ++ ([⟨2, 1⟩, ⟨3, 2⟩, ⟨2, 3⟩] : List fuse_forget_data).map
          (fun f => Event.call (FsCall.forget f.ino f.nlookup)) ++ [Event.reply Reply.none] ∧
      w'.fs = (forget_one_by_one krefs_table ⟨⟨0, 0, 1⟩⟩ [⟨2, 1⟩, ⟨3, 2⟩, ⟨2, 3⟩]
        ⟨fun _ => 5, []⟩).fs ∧
      w'.fs 2 = 5 - forgotten [⟨2, 1⟩, ⟨3, 2⟩, ⟨2, 3⟩] 2 ∧
      forgotten [⟨2, 1⟩, ⟨3, 2⟩, ⟨2, 3⟩] 2 = 4 := by
  refine ⟨rfl, ?_⟩
  obtain ⟨w', hrun, htrace, hfs, hkrefs⟩ :=
    ll_forget_multi_is_sequential_forget krefs_table ⟨⟨0, 0, 1⟩⟩ 3 [⟨2, 1⟩, ⟨3, 2⟩, ⟨2, 3⟩]
      ⟨fun _ => 5, []⟩ rfl
  exact ⟨w', hrun, htrace, hfs, hkrefs (fun s j => s j) 2 (fun _ _ _ => rfl), by decide⟩

/-! ## The configured size -/

theorem fuse_opt_parse_append (pre rest : List Arg) (opts : filesystem_opts)
    (hpre : ∀ a ∈ pre, a.stops = false) :
    ∃ o, fuse_opt_parse (pre ++ rest) opts = fuse_opt_parse rest o := by
  induction pre generalizing opts with
  | nil => exact ⟨opts, rfl⟩
  | cons a pre ih =>
    have hrest : ∀ b ∈ pre, b.stops = false := fun b hb => hpre b (by simp [hb])
    have ha : a.stops = false := hpre a (by simp)
    cases a with
    | size n => exact ih _ hrest
    | size_malformed => simp [Arg.stops] at ha
    | debug => exact ih _ hrest
    | help => simp [Arg.stops] at ha
    | option text => exact ih opts hrest
    | nonopt text => exact ih opts hrest

theorem fuse_opt_parse_keeps_size (post : List Arg) (opts : filesystem_opts)
    (hpost : ∀ a ∈ post, a.stops = false ∧ a.is_size = false) :
    ∃ d, fuse_opt_parse post opts = ParseResult.ok { size := opts.size, debug := d } := by
  induction post generalizing opts with
  | nil => exact ⟨opts.debug, rfl⟩
  | cons a post ih =>
    have hrest : ∀ b ∈ post, b.stops = false ∧ b.is_size = false :=
      fun b hb => hpost b (by simp [hb])
    have ha := hpost a (by simp)
    cases a with
    | size n => simp [Arg.is_size] at ha
    | size_malformed => simp [Arg.stops] at ha
    | debug => exact ih { opts with debug := true } hrest
    | help => simp [Arg.stops] at ha
    | option text => exact ih opts hrest
    | nonopt text => exact ih opts hrest

/-- Claim C8: the default size is `512 << 20`, which is `536870912` and is
computed within the range of `int`; without a `size=` option that default
reaches the `FileSystem` constructor; with `size=N` the value `N` reaches it;
and the constructor is reached only with a size above zero, `size=0` failing
the start-up assertion. -/
theorem main_size_is_positive_default_512MiB (pre post : List Arg) (N : Nat)
    (hpre : ∀ a ∈ pre, a.stops = false)
    (hpost : ∀ a ∈ post, a.stops = false ∧ a.is_size = false)
    (hN : N < 2 ^ 64) :
    (shl_int 512 20 = 536870912 ∧ (512 : Int) * 2 ^ 20 ≤ INT_MAX) ∧
    (∃ d, main post = Startup.constructed 536870912 d) ∧
    (0 < N → ∃ d, main (pre ++ Arg.size N :: post) = Startup.constructed N d) ∧
    (N = 0 → main (pre ++ Arg.size N :: post) = Startup.assert_failed) ∧
    (∀ args size d, main args = Startup.constructed size d → 0 < size) := by
  refine ⟨⟨by decide, by decide⟩, ?_, ?_, ?_, ?_⟩
  · obtain ⟨d, hd⟩ := fuse_opt_parse_keeps_size post
      { size := to_size_t (shl_int 512 20), debug := false } hpost
    refine ⟨d, ?_⟩
    simp only [main, hd]
    rfl
  · intro hpos
    obtain ⟨o, ho⟩ := fuse_opt_parse_append pre (Arg.size N :: post)
      { size := to_size_t (shl_int 512 20), debug := false } hpre
    obtain ⟨d, hd⟩ := fuse_opt_parse_keeps_size post { o with size := to_size_t N } hpost
    have hsz : to_size_t (N : Int) = N := by
      unfold to_size_t
      omega
    have hd' : fuse_opt_parse post { size := to_size_t N, debug := o.debug }
        = ParseResult.ok { size := to_size_t N, debug := d } := hd
    rw [hsz] at hd'
    refine ⟨d, ?_⟩
    simp only [main, ho, fuse_opt_parse, hsz, hd']
    simp [hpos]
  · intro hzero
    subst hzero
    obtain ⟨o, ho⟩ := fuse_opt_parse_append pre (Arg.size 0 :: post)
      { size := to_size_t (shl_int 512 20), debug := false } hpre
    obtain ⟨d, hd⟩ := fuse_opt_parse_keeps_size post { o with size := to_size_t (0 : Nat) } hpost
    have hd' : fuse_opt_parse post { size := to_size_t (0 : Nat), debug := o.debug }
        = ParseResult.ok { size := to_size_t (0 : Nat), debug := d } := hd
    simp only [main, ho, fuse_opt_parse, hd']
    rfl
  · intro args size d h
    simp only [main] at h
    split at h
    · cases h
    · cases h
    · cases h
    · split at h
      · cases h
        assumption
      · cases h

theorem main_size_is_positive_default_512MiB_witness :
    (∀ a ∈ [Arg.nonopt "/mnt", Arg.size 4096], a.stops = false) ∧
    (∀ a ∈ [Arg.debug], a.stops = false ∧ a.is_size = false) ∧
    (1048576 : Nat) < 2 ^ 64 ∧
    (shl_int 512 20 = 536870912 ∧ (512 : Int) * 2 ^ 20 ≤ INT_MAX) ∧
    (∃ d, main [Arg.debug] = Startup.constructed 536870912 d) ∧
    (0 < 1048576 → ∃ d, main ([Arg.nonopt "/mnt", Arg.size 4096] ++ Arg.size 1048576 ::
      [Arg.debug]) = Startup.constructed 1048576 d) ∧
    (1048576 = 0 → main ([Arg.nonopt "/mnt", Arg.size 4096] ++ Arg.size 1048576 ::
      [Arg.debug]) = Startup.assert_failed) ∧
    (∀ args size d, main args = Startup.constructed size d → 0 < size) :=
  ⟨by decide, by decide, by decide,
    main_size_is_positive_default_512MiB [Arg.nonopt "/mnt", Arg.size 4096] [Arg.debug] 1048576
      (by decide) (by decide) (by decide)⟩

end FuseBoilerplate
